import Mathlib

/-!
Verification of the vagal-profile classification engine
(`bot/services/vagal_profile.py`).

Numeric values are embedded as rationals (`ℚ`); Python's
`ZeroDivisionError` is modelled by `Option`-valued wrappers that return
`none` exactly when the Python code would divide by a zero float.  The
in-place mutation of `TriggerTestResult` objects performed by
`classify_with_triggers` is modelled by returning the updated list of
trigger tests alongside the profile (explicit state passing).
-/

namespace Psychobot

/-- States of the polyvagal model (`VagalState` enum). -/
inductive VagalState where
  | VENTRAL
  | SYMPATHETIC
  | DORSAL
deriving DecidableEq, Repr

/-- The `value` attribute of the `VagalState` enum members. -/
def VagalState.value : VagalState → String
  | .VENTRAL => "V"
  | .SYMPATHETIC => "S"
  | .DORSAL => "D"

/-- Trigger categories (`TriggerType` enum). -/
inductive TriggerType where
  | ATTACHMENT
  | CONTROL
  | SAFETY
  | IDENTITY
  | BODY
  | UNKNOWN
deriving DecidableEq, Repr

/-- The `value` attribute of the `TriggerType` enum members. -/
def TriggerType.value : TriggerType → String
  | .ATTACHMENT => "Ta"
  | .CONTROL => "Tc"
  | .SAFETY => "Ts"
  | .IDENTITY => "Ti"
  | .BODY => "Tb"
  | .UNKNOWN => "T?"

/-- Kubios HRV summary statistics (`KubiosData` dataclass). -/
structure KubiosData where
  mean_rr : ℚ
  sdnn : ℚ
  rmssd : ℚ
  pnn50 : ℚ
  mean_hr : ℚ
  vlf_power : ℚ
  lf_power : ℚ
  hf_power : ℚ
  lf_hf_ratio : ℚ
  total_power : ℚ
  sd1 : ℚ
  sd2 : ℚ
  sample_entropy : Option ℚ := none
deriving DecidableEq, Repr

/-- Result of one trigger test (`TriggerTestResult` dataclass).
`response_type` defaults to Python's `None`. -/
structure TriggerTestResult where
  trigger_type : TriggerType
  stress_data : KubiosData
  reactivity_score : ℚ := 0
  response_type : Option VagalState := none
  recovery_speed : ℚ := 0
deriving DecidableEq, Repr

/-- Behavioral presentation scores (`BehavioralAssessment` dataclass). -/
structure BehavioralAssessment where
  eye_contact : ℤ
  voice_prosody : ℤ
  facial_expressivity : ℤ
  social_engagement : ℤ
  body_relaxation : ℤ
  reports_dissociation : Bool := false
  reports_anxiety : Bool := false
  reports_numbness : Bool := false
deriving DecidableEq, Repr

/-- Basic three-phase protocol input (`ThreePhaseMeasurement` dataclass). -/
structure ThreePhaseMeasurement where
  baseline : KubiosData
  stress : KubiosData
  recovery : KubiosData
  recovery_time_seconds : ℚ
  trigger_type : Option TriggerType := none
deriving DecidableEq, Repr

/-- Extended multi-trigger protocol input (`MultiTriggerMeasurement`). -/
structure MultiTriggerMeasurement where
  baseline : KubiosData
  trigger_tests : List TriggerTestResult := []
  final_recovery : Option KubiosData := none
deriving DecidableEq, Repr

/-- The produced profile (`VagalProfile` dataclass).  The Python dict
`trigger_sensitivity_map` is embedded as an association list in dict
insertion order. -/
structure VagalProfile where
  physiological_dominant : VagalState
  behavioral_presentation : VagalState
  is_pseudo : Bool
  stress_response : VagalState
  recovery_speed_percent : ℚ
  reactivity_index : ℚ
  coherence_score : ℚ
  primary_trigger : TriggerType := .UNKNOWN
  secondary_trigger : Option TriggerType := none
  trigger_sensitivity_map : List (TriggerType × ℚ) := []
deriving DecidableEq, Repr

/-- Semantics of Python's `', '.join`. -/
def join_comma : List String → String
  | [] => ""
  | [s] => s
  | s :: rest => s ++ ", " ++ join_comma rest

/-- `VagalProfile.get_full_formula`: profile formula with the optional
trigger suffix, `', '.join` over the collected trigger codes. -/
def VagalProfile.get_full_formula (p : VagalProfile) : String :=
  let pseudo_marker := if p.is_pseudo then "(p)" else ""
  let base := p.physiological_dominant.value ++ "-" ++
    p.behavioral_presentation.value ++ pseudo_marker ++ "-" ++
    p.stress_response.value
  let triggers :=
    (if p.primary_trigger ≠ TriggerType.UNKNOWN then [p.primary_trigger.value] else []) ++
    (match p.secondary_trigger with
      | some s => if s ≠ TriggerType.UNKNOWN then [s.value] else []
      | none => [])
  if triggers ≠ [] then base ++ " (" ++ join_comma triggers ++ ")"
  else base

/-- Classifier thresholds (`VagalProfileClassifier` class attributes,
optionally overridden at construction time). -/
structure VagalProfileClassifier where
  RMSSD_HIGH : ℚ := 42
  RMSSD_LOW : ℚ := 20
  SDNN_HIGH : ℚ := 50
  SDNN_LOW : ℚ := 30
  SDNN_VERY_LOW : ℚ := 15
  LFHF_HIGH : ℚ := 2
  LFHF_LOW : ℚ := 1/2
  HF_HIGH : ℚ := 400
  HF_LOW : ℚ := 100
  TP_VERY_LOW : ℚ := 500
  RECOVERY_FAST : ℚ := 80
  RECOVERY_SLOW : ℚ := 50
  BEHAVIORAL_HIGH : ℚ := 4
  BEHAVIORAL_LOW : ℚ := 5/2
deriving DecidableEq, Repr

/-- `VagalProfileClassifier._is_dorsal_pattern`: weighted dorsal-marker
accumulation, dorsal iff the total reaches 3. -/
def VagalProfileClassifier.is_dorsal_pattern
    (c : VagalProfileClassifier) (data : KubiosData) : Bool :=
  let m1 : ℕ := if data.sdnn ≤ c.SDNN_VERY_LOW then 2 else 0
  let m2 : ℕ := if data.total_power ≤ c.TP_VERY_LOW then 2 else 0
  let m3 : ℕ := if data.sd1 ≤ 10 ∧ data.sd2 ≤ 20 then 2 else 0
  let m4 : ℕ :=
    match data.sample_entropy with
    | some e => if e ≤ 1 then 1 else 0
    | none => 0
  let m5 : ℕ := if data.rmssd > c.RMSSD_LOW ∧ data.sdnn ≤ c.SDNN_VERY_LOW then 1 else 0
  decide (3 ≤ m1 + m2 + m3 + m4 + m5)

/-- `VagalProfileClassifier.classify_physiological_state`: dorsal
pre-check, then weighted Ventral-vs-Sympathetic voting with ties going
to Sympathetic. -/
def VagalProfileClassifier.classify_physiological_state
    (c : VagalProfileClassifier) (data : KubiosData) : VagalState :=
  if c.is_dorsal_pattern data then VagalState.DORSAL
  else
    let p1 : ℕ × ℕ :=
      if data.rmssd ≥ c.RMSSD_HIGH then (2, 0)
      else if data.rmssd ≤ c.RMSSD_LOW then (0, 2)
      else (1, 0)
    let p2 : ℕ × ℕ :=
      if data.lf_hf_ratio ≥ c.LFHF_HIGH then (0, 2)
      else if data.lf_hf_ratio ≤ c.LFHF_LOW then (2, 0)
      else (0, 0)
    let p3 : ℕ × ℕ :=
      if data.hf_power ≥ c.HF_HIGH then (1, 0)
      else if data.hf_power ≤ c.HF_LOW then (0, 1)
      else (0, 0)
    let p4 : ℕ × ℕ :=
      if data.sd1 ≥ 30 then (1, 0)
      else if data.sd1 ≤ 15 then (0, 1)
      else (0, 0)
    let ventral_score := p1.1 + p2.1 + p3.1 + p4.1
    let sympathetic_score := p1.2 + p2.2 + p3.2 + p4.2
    if ventral_score > sympathetic_score then VagalState.VENTRAL
    else VagalState.SYMPATHETIC

/-- `VagalProfileClassifier.classify_behavioral_presentation`: average of
the five social markers against the behavioral thresholds; the returned
flag is always `false` (pseudo is decided later). -/
def VagalProfileClassifier.classify_behavioral_presentation
    (c : VagalProfileClassifier) (assessment : BehavioralAssessment) :
    VagalState × Bool :=
  let social_markers : List ℤ :=
    [assessment.eye_contact, assessment.voice_prosody,
     assessment.facial_expressivity, assessment.social_engagement,
     assessment.body_relaxation]
  let avg_score : ℚ := (social_markers.sum : ℚ) / (social_markers.length : ℚ)
  let presentation :=
    if avg_score ≥ c.BEHAVIORAL_HIGH then VagalState.VENTRAL
    else if avg_score ≤ c.BEHAVIORAL_LOW then
      if assessment.reports_numbness ∨ assessment.reports_dissociation then
        VagalState.DORSAL
      else VagalState.SYMPATHETIC
    else VagalState.SYMPATHETIC
  (presentation, false)

/-- Body of `VagalProfileClassifier.classify_stress_response`, defined on
snapshots whose baseline denominators are nonzero (Lean's division by
zero never arises on the guarded path). -/
def raw_stress_response (baseline stress : KubiosData) : VagalState :=
  let rmssd_change := (stress.rmssd - baseline.rmssd) / baseline.rmssd * 100
  let lfhf_change := stress.lf_hf_ratio - baseline.lf_hf_ratio
  let sdnn_change := (stress.sdnn - baseline.sdnn) / baseline.sdnn * 100
  let tp_change := (stress.total_power - baseline.total_power) / baseline.total_power * 100
  if |rmssd_change| < 10 ∧ |sdnn_change| < 10 then VagalState.DORSAL
  else if rmssd_change < -30 ∧ lfhf_change > 1/2 then VagalState.SYMPATHETIC
  else if tp_change < -50 ∧ sdnn_change < -40 then VagalState.DORSAL
  else if -30 ≤ rmssd_change ∧ rmssd_change ≤ -10 then VagalState.VENTRAL
  else VagalState.SYMPATHETIC

/-- `VagalProfileClassifier.classify_stress_response`.  The Python body
divides by `baseline.rmssd`, `baseline.sdnn` and `baseline.total_power`;
a zero denominator raises `ZeroDivisionError`, modelled as `none`. -/
def classify_stress_response (baseline stress : KubiosData) : Option VagalState :=
  if baseline.rmssd = 0 ∨ baseline.sdnn = 0 ∨ baseline.total_power = 0 then none
  else some (raw_stress_response baseline stress)

/-- `VagalProfileClassifier.calculate_recovery_speed`: RMSSD-based
recovery percentage; total because the `|drop| < 0.1` guard excludes the
zero denominator. -/
def calculate_recovery_speed (baseline stress recovery : KubiosData) : ℚ :=
  let drop := baseline.rmssd - stress.rmssd
  if |drop| < 1/10 then 100
  else
    let recovered := recovery.rmssd - stress.rmssd
    let recovery_percent := recovered / drop * 100
    min (max recovery_percent 0) 150

/-- Body of `VagalProfileClassifier.calculate_reactivity_index` on
snapshots whose baseline denominators are nonzero. -/
def raw_reactivity_index (baseline stress : KubiosData) : ℚ :=
  let changes : List ℚ :=
    [|stress.rmssd - baseline.rmssd| / baseline.rmssd,
     |stress.sdnn - baseline.sdnn| / baseline.sdnn,
     |stress.lf_hf_ratio - baseline.lf_hf_ratio| / max baseline.lf_hf_ratio (1/10),
     |stress.total_power - baseline.total_power| / baseline.total_power]
  changes.sum / (changes.length : ℚ) * 100

/-- `VagalProfileClassifier.calculate_reactivity_index`; a zero baseline
RMSSD, SDNN or total power raises `ZeroDivisionError`, modelled as
`none` (the LF/HF denominator is floored at 0.1 and never zero). -/
def calculate_reactivity_index (baseline stress : KubiosData) : Option ℚ :=
  if baseline.rmssd = 0 ∨ baseline.sdnn = 0 ∨ baseline.total_power = 0 then none
  else some (raw_reactivity_index baseline stress)

/-- `VagalProfileClassifier.calculate_coherence`. -/
def calculate_coherence
    (physiological behavioral stress_response : VagalState) : ℚ :=
  if physiological = behavioral ∧ behavioral = stress_response then 1
  else if physiological = behavioral ∨ behavioral = stress_response ∨
      physiological = stress_response then 1/2
  else 0

/-- Python dict assignment `m[k] = v`: updates the value in place when
the key is present (keeping its insertion position), otherwise appends. -/
def dict_insert {α : Type} (m : List (TriggerType × α)) (k : TriggerType) (v : α) :
    List (TriggerType × α) :=
  match m with
  | [] => [(k, v)]
  | (k', v') :: rest =>
    if k' = k then (k, v) :: rest else (k', v') :: dict_insert rest k v

/-- Python dict lookup `m.get(k)`: first (unique) binding of `k`. -/
def dict_get {α : Type} (m : List (TriggerType × α)) (k : TriggerType) : Option α :=
  match m with
  | [] => none
  | (k', v') :: rest => if k' = k then some v' else dict_get rest k

/-- One iteration of the trigger loop in `classify_with_triggers`: score
the test and store the results into its (mutated) fields. -/
def score_test (baseline : KubiosData) (test : TriggerTestResult) :
    Option TriggerTestResult :=
  match calculate_reactivity_index baseline test.stress_data,
        classify_stress_response baseline test.stress_data with
  | some reactivity, some response =>
    some { test with reactivity_score := reactivity, response_type := some response }
  | _, _ => none

/-- The trigger loop of `classify_with_triggers`, producing the updated
(mutated) trigger-test list; the first `ZeroDivisionError` aborts. -/
def score_tests (baseline : KubiosData) :
    List TriggerTestResult → Option (List TriggerTestResult)
  | [] => some []
  | test :: rest =>
    match score_test baseline test, score_tests baseline rest with
    | some test', some rest' => some (test' :: rest')
    | _, _ => none

/-- The `trigger_sensitivity_map` dict built by the trigger loop. -/
def build_sensitivity_map (tests : List TriggerTestResult) : List (TriggerType × ℚ) :=
  tests.foldl (fun m t => dict_insert m t.trigger_type t.reactivity_score) []

/-- The `trigger_responses` dict built by the trigger loop.  After the
scoring pass every `response_type` is set, so the `getD` default is
never consulted. -/
def build_response_map (tests : List TriggerTestResult) : List (TriggerType × VagalState) :=
  tests.foldl
    (fun m t => dict_insert m t.trigger_type (t.response_type.getD VagalState.SYMPATHETIC)) []

/-- Insert into a list sorted descending by score, after strictly greater
entries and before equal ones. -/
def insert_desc (x : TriggerType × ℚ) :
    List (TriggerType × ℚ) → List (TriggerType × ℚ)
  | [] => [x]
  | y :: ys => if y.2 > x.2 then y :: insert_desc x ys else x :: y :: ys

/-- Semantics of Python's `sorted(items, key=value, reverse=True)`:
the unique stable descending reordering by score. -/
def sorted_desc : List (TriggerType × ℚ) → List (TriggerType × ℚ)
  | [] => []
  | x :: xs => insert_desc x (sorted_desc xs)

/-- Python's `max(tests, key=reactivity_score)`: first maximal element. -/
def python_max_test (best : TriggerTestResult) :
    List TriggerTestResult → TriggerTestResult
  | [] => best
  | t :: rest =>
    python_max_test (if best.reactivity_score < t.reactivity_score then t else best) rest

/-- `VagalProfileClassifier.classify`: the basic three-phase protocol.
`none` models the `ZeroDivisionError` raised while computing the stress
response or the reactivity index. -/
def VagalProfileClassifier.classify (c : VagalProfileClassifier)
    (measurements : ThreePhaseMeasurement) (behavioral : BehavioralAssessment) :
    Option VagalProfile :=
  let physiological := c.classify_physiological_state measurements.baseline
  let behavioral_state := (c.classify_behavioral_presentation behavioral).1
  let is_pseudo : Bool :=
    decide (behavioral_state = VagalState.VENTRAL ∧ physiological ≠ VagalState.VENTRAL)
  match classify_stress_response measurements.baseline measurements.stress,
        calculate_reactivity_index measurements.baseline measurements.stress with
  | some stress_response, some reactivity =>
    some
      { physiological_dominant := physiological
        behavioral_presentation := behavioral_state
        is_pseudo := is_pseudo
        stress_response := stress_response
        recovery_speed_percent :=
          calculate_recovery_speed measurements.baseline measurements.stress
            measurements.recovery
        reactivity_index := reactivity
        coherence_score := calculate_coherence physiological behavioral_state stress_response
        primary_trigger := measurements.trigger_type.getD TriggerType.UNKNOWN
        secondary_trigger := none
        trigger_sensitivity_map := [] }
  | _, _ => none

/-- The pure tail of `classify_with_triggers`, applied to the already
scored trigger tests: ranking, primary/secondary selection, recovery
speed, coherence, profile assembly. -/
def assemble_trigger_profile (c : VagalProfileClassifier)
    (baseline : KubiosData) (final_recovery : Option KubiosData)
    (behavioral : BehavioralAssessment) (tests : List TriggerTestResult) :
    VagalProfile :=
  let physiological := c.classify_physiological_state baseline
  let behavioral_state := (c.classify_behavioral_presentation behavioral).1
  let is_pseudo : Bool :=
    decide (behavioral_state = VagalState.VENTRAL ∧ physiological ≠ VagalState.VENTRAL)
  let trigger_sensitivity_map := build_sensitivity_map tests
  let trigger_responses := build_response_map tests
  let sorted_triggers := sorted_desc trigger_sensitivity_map
  let chosen : TriggerType × ℚ × Option TriggerType :=
    match sorted_triggers with
    | [] => (TriggerType.UNKNOWN, 0, none)
    | first :: rest =>
      (first.1, first.2,
        match rest with
        | [] => none
        | second :: _ =>
          if second.2 ≥ first.2 * (3/5) then some second.1 else none)
  let primary_trigger := chosen.1
  let max_reactivity := chosen.2.1
  let secondary_trigger := chosen.2.2
  let dominant_stress_response :=
    match sorted_triggers with
    | [] => VagalState.SYMPATHETIC
    | _ :: _ => (dict_get trigger_responses primary_trigger).getD VagalState.SYMPATHETIC
  let recovery_speed : ℚ :=
    match final_recovery with
    | none => 50
    | some fr =>
      match tests with
      | [] => 50
      | t :: rest => calculate_recovery_speed baseline (python_max_test t rest).stress_data fr
  let coherence := calculate_coherence physiological behavioral_state dominant_stress_response
  { physiological_dominant := physiological
    behavioral_presentation := behavioral_state
    is_pseudo := is_pseudo
    stress_response := dominant_stress_response
    recovery_speed_percent := recovery_speed
    reactivity_index := max_reactivity
    coherence_score := coherence
    primary_trigger := primary_trigger
    secondary_trigger := secondary_trigger
    trigger_sensitivity_map := trigger_sensitivity_map }

/-- `VagalProfileClassifier.classify_with_triggers`.  The returned list
is the input `trigger_tests` after the in-place mutation of
`reactivity_score` and `response_type` performed by the trigger loop. -/
def VagalProfileClassifier.classify_with_triggers (c : VagalProfileClassifier)
    (multi_measurement : MultiTriggerMeasurement) (behavioral : BehavioralAssessment) :
    Option (VagalProfile × List TriggerTestResult) :=
  match score_tests multi_measurement.baseline multi_measurement.trigger_tests with
  | none => none
  | some tests =>
    some
      (assemble_trigger_profile c multi_measurement.baseline
        multi_measurement.final_recovery behavioral tests, tests)

/-- Stress-response rule set as the spec states it (claim C1): first
match wins over the percent changes `ΔRMSSD%`, `ΔSDNN%`, `ΔTotalPower%`
and the LF/HF ratio difference `ΔLF/HF`. -/
def spec_stress_response (dRMSSD dLFHF dSDNN dTP : ℚ) : VagalState :=
  if |dRMSSD| < 10 ∧ |dSDNN| < 10 then VagalState.DORSAL
  else if dRMSSD < -30 ∧ dLFHF > 1/2 then VagalState.SYMPATHETIC
  else if dTP < -50 ∧ dSDNN < -40 then VagalState.DORSAL
  else if -30 ≤ dRMSSD ∧ dRMSSD ≤ -10 then VagalState.VENTRAL
  else VagalState.SYMPATHETIC

/-- Dorsal-marker score as the spec states it (claim C2): +2 for SDNN at
or below very-low, +2 for total power at or below very-low, +2 for SD1 ≤
10 and SD2 ≤ 20 simultaneously, +1 for a present sample entropy ≤ 1, +1
for RMSSD above the low threshold while SDNN is at or below very-low. -/
def spec_dorsal_score (c : VagalProfileClassifier) (data : KubiosData) : ℕ :=
  (if data.sdnn ≤ c.SDNN_VERY_LOW then 2 else 0) +
  (if data.total_power ≤ c.TP_VERY_LOW then 2 else 0) +
  (if data.sd1 ≤ 10 ∧ data.sd2 ≤ 20 then 2 else 0) +
  (match data.sample_entropy with
    | some e => if e ≤ 1 then 1 else 0
    | none => 0) +
  (if data.rmssd > c.RMSSD_LOW ∧ data.sdnn ≤ c.SDNN_VERY_LOW then 1 else 0)

/-- Ventral votes as the spec states them (claim C2). -/
def spec_ventral_votes (c : VagalProfileClassifier) (data : KubiosData) : ℕ :=
  (if data.rmssd ≥ c.RMSSD_HIGH then 2
   else if data.rmssd ≤ c.RMSSD_LOW then 0 else 1) +
  (if data.lf_hf_ratio ≥ c.LFHF_HIGH then 0
   else if data.lf_hf_ratio ≤ c.LFHF_LOW then 2 else 0) +
  (if data.hf_power ≥ c.HF_HIGH then 1
   else if data.hf_power ≤ c.HF_LOW then 0 else 0) +
  (if data.sd1 ≥ 30 then 1 else if data.sd1 ≤ 15 then 0 else 0)

/-- Sympathetic votes as the spec states them (claim C2). -/
def spec_sympathetic_votes (c : VagalProfileClassifier) (data : KubiosData) : ℕ :=
  (if data.rmssd ≥ c.RMSSD_HIGH then 0
   else if data.rmssd ≤ c.RMSSD_LOW then 2 else 0) +
  (if data.lf_hf_ratio ≥ c.LFHF_HIGH then 2
   else if data.lf_hf_ratio ≤ c.LFHF_LOW then 0 else 0) +
  (if data.hf_power ≥ c.HF_HIGH then 0
   else if data.hf_power ≤ c.HF_LOW then 1 else 0) +
  (if data.sd1 ≥ 30 then 0 else if data.sd1 ≤ 15 then 1 else 0)

/-- Physiological-state procedure as the spec states it (claim C2):
Dorsal iff the dorsal-marker score reaches 3; otherwise Ventral iff the
Ventral votes strictly exceed the Sympathetic ones. -/
def spec_physiological_state (c : VagalProfileClassifier) (data : KubiosData) :
    VagalState :=
  if 3 ≤ spec_dorsal_score c data then VagalState.DORSAL
  else if spec_ventral_votes c data > spec_sympathetic_votes c data then
    VagalState.VENTRAL
  else VagalState.SYMPATHETIC

/-- Formula construction as claim C8 states it: base string, suffixed
with the primary trigger when it is known, and with primary and
secondary when a secondary trigger is also set. -/
def claim_formula (p : VagalProfile) : String :=
  let base := p.physiological_dominant.value ++ "-" ++
    p.behavioral_presentation.value ++ (if p.is_pseudo then "(p)" else "") ++ "-" ++
    p.stress_response.value
  if p.primary_trigger = TriggerType.UNKNOWN then base
  else
    match p.secondary_trigger with
    | none => base ++ " (" ++ p.primary_trigger.value ++ ")"
    | some s => base ++ " (" ++ p.primary_trigger.value ++ ", " ++ s.value ++ ")"

/-! Concrete inputs used by witnesses and counterexamples. -/

/-- Classifier with the default thresholds. -/
def default_classifier : VagalProfileClassifier := {}

/-- Baseline snapshot shared by the concrete scenarios. -/
def sample_baseline : KubiosData :=
  { mean_rr := 800, sdnn := 10, rmssd := 10, pnn50 := 20, mean_hr := 70,
    vlf_power := 300, lf_power := 400, hf_power := 300, lf_hf_ratio := 1,
    total_power := 1000, sd1 := 20, sd2 := 30 }

/-- Stress snapshot whose four relative changes against
`sample_baseline` all equal 2 (reactivity index 200). -/
def stress_strong : KubiosData :=
  { sample_baseline with rmssd := 30, sdnn := 30, lf_hf_ratio := 3, total_power := 3000 }

/-- Stress snapshot whose four relative changes all equal 1.5
(reactivity index 150). -/
def stress_medium : KubiosData :=
  { sample_baseline with rmssd := 25, sdnn := 25, lf_hf_ratio := 5/2, total_power := 2500 }

/-- Stress snapshot whose four relative changes all equal 1
(reactivity index 100). -/
def stress_mild : KubiosData :=
  { sample_baseline with rmssd := 20, sdnn := 20, lf_hf_ratio := 2, total_power := 2000 }

/-- Behavioral assessment with all five scores equal to 3. -/
def sample_behavioral : BehavioralAssessment :=
  { eye_contact := 3, voice_prosody := 3, facial_expressivity := 3,
    social_engagement := 3, body_relaxation := 3 }

/-- Behavioral assessment with an out-of-range score (6 is outside 1-5). -/
def out_of_range_behavioral : BehavioralAssessment :=
  { eye_contact := 6, voice_prosody := 3, facial_expressivity := 3,
    social_engagement := 3, body_relaxation := 3 }

/-- A basic three-phase measurement with a valid baseline. -/
def sample_three_phase : ThreePhaseMeasurement :=
  { baseline := sample_baseline, stress := stress_mild,
    recovery := { sample_baseline with rmssd := 18 },
    recovery_time_seconds := 60 }

/-- Three-phase measurement whose baseline RMSSD is negative (≤ 0). -/
def negative_three_phase : ThreePhaseMeasurement :=
  { sample_three_phase with baseline := { sample_baseline with rmssd := -10 } }

/-- Multi-trigger measurement with a single trigger test (its
`reactivity_score` still at the 0.0 default). -/
def single_trigger_measurement : MultiTriggerMeasurement :=
  { baseline := sample_baseline,
    trigger_tests := [{ trigger_type := .ATTACHMENT, stress_data := stress_strong }] }

/-- Multi-trigger measurement whose two tests have pairwise distinct
trigger types, with reactivities 200 and 150. -/
def distinct_trigger_measurement : MultiTriggerMeasurement :=
  { baseline := sample_baseline,
    trigger_tests :=
      [{ trigger_type := .ATTACHMENT, stress_data := stress_strong },
       { trigger_type := .CONTROL, stress_data := stress_medium }] }

/-- Multi-trigger measurement that tests the ATTACHMENT trigger twice
(reactivities 200 then 0) around a CONTROL test (reactivity 100). -/
def duplicate_trigger_measurement : MultiTriggerMeasurement :=
  { baseline := sample_baseline,
    trigger_tests :=
      [{ trigger_type := .ATTACHMENT, stress_data := stress_strong },
       { trigger_type := .CONTROL, stress_data := stress_mild },
       { trigger_type := .ATTACHMENT, stress_data := sample_baseline }] }

/-- Multi-trigger measurement whose second test carries the UNKNOWN
trigger type with reactivity 150 (≥ 60% of the primary's 200). -/
def unknown_trigger_measurement : MultiTriggerMeasurement :=
  { baseline := sample_baseline,
    trigger_tests :=
      [{ trigger_type := .ATTACHMENT, stress_data := stress_strong },
       { trigger_type := .UNKNOWN, stress_data := stress_medium }] }

/-- Multi-trigger measurement with an empty trigger-test list. -/
def empty_trigger_measurement : MultiTriggerMeasurement :=
  { baseline := sample_baseline }

/-- Snapshot that satisfies all four conditions of the dorsal
pre-check dominance scenario under the default thresholds. -/
def flat_snapshot : KubiosData :=
  { sample_baseline with sdnn := 10, total_power := 400, sd1 := 5, sd2 := 15 }

/-- What one pass of the trigger loop stores into a test when the
baseline denominators are nonzero (derived form of `score_test`). -/
def score_pure (baseline : KubiosData) (t : TriggerTestResult) : TriggerTestResult :=
  { t with reactivity_score := raw_reactivity_index baseline t.stress_data,
           response_type := some (raw_stress_response baseline t.stress_data) }

/-- The scored trigger list produced for `single_trigger_measurement`. -/
def single_scored : List TriggerTestResult :=
  [{ trigger_type := .ATTACHMENT, stress_data := stress_strong,
     reactivity_score := 200, response_type := some .SYMPATHETIC }]

/-- The profile produced for `single_trigger_measurement`. -/
def single_profile : VagalProfile :=
  { physiological_dominant := .SYMPATHETIC, behavioral_presentation := .SYMPATHETIC,
    is_pseudo := false, stress_response := .SYMPATHETIC,
    recovery_speed_percent := 50, reactivity_index := 200, coherence_score := 1,
    primary_trigger := .ATTACHMENT, secondary_trigger := none,
    trigger_sensitivity_map := [(.ATTACHMENT, 200)] }

/-- The scored trigger list produced for `distinct_trigger_measurement`. -/
def distinct_scored : List TriggerTestResult :=
  [{ trigger_type := .ATTACHMENT, stress_data := stress_strong,
     reactivity_score := 200, response_type := some .SYMPATHETIC },
   { trigger_type := .CONTROL, stress_data := stress_medium,
     reactivity_score := 150, response_type := some .SYMPATHETIC }]

/-- The profile produced for `distinct_trigger_measurement`. -/
def distinct_profile : VagalProfile :=
  { physiological_dominant := .SYMPATHETIC, behavioral_presentation := .SYMPATHETIC,
    is_pseudo := false, stress_response := .SYMPATHETIC,
    recovery_speed_percent := 50, reactivity_index := 200, coherence_score := 1,
    primary_trigger := .ATTACHMENT, secondary_trigger := some .CONTROL,
    trigger_sensitivity_map := [(.ATTACHMENT, 200), (.CONTROL, 150)] }

/-- The scored trigger list produced for `unknown_trigger_measurement`. -/
def unknown_scored : List TriggerTestResult :=
  [{ trigger_type := .ATTACHMENT, stress_data := stress_strong,
     reactivity_score := 200, response_type := some .SYMPATHETIC },
   { trigger_type := .UNKNOWN, stress_data := stress_medium,
     reactivity_score := 150, response_type := some .SYMPATHETIC }]

/-- The profile produced for `unknown_trigger_measurement`: its secondary
trigger is set (to UNKNOWN). -/
def unknown_profile : VagalProfile :=
  { physiological_dominant := .SYMPATHETIC, behavioral_presentation := .SYMPATHETIC,
    is_pseudo := false, stress_response := .SYMPATHETIC,
    recovery_speed_percent := 50, reactivity_index := 200, coherence_score := 1,
    primary_trigger := .ATTACHMENT, secondary_trigger := some .UNKNOWN,
    trigger_sensitivity_map := [(.ATTACHMENT, 200), (.UNKNOWN, 150)] }

/-! Helper lemmas. -/

/-- `score_tests` fails exactly when the list is nonempty and a baseline
denominator is zero. -/
theorem score_tests_eq_none (b : KubiosData) (l : List TriggerTestResult) :
    score_tests b l = none ↔
      l ≠ [] ∧ (b.rmssd = 0 ∨ b.sdnn = 0 ∨ b.total_power = 0) := by
  induction l with
  | nil => simp [score_tests]
  | cons t rest ih =>
    by_cases hz : b.rmssd = 0 ∨ b.sdnn = 0 ∨ b.total_power = 0
    · simp [score_tests, score_test, calculate_reactivity_index,
        classify_stress_response, hz]
    · cases hrest : score_tests b rest with
      | none => exact absurd (ih.mp hrest).2 hz
      | some rest' =>
        simp [score_tests, score_test, calculate_reactivity_index,
          classify_stress_response, hz, hrest]

/-- On a nonzero baseline, `score_tests` is the pure per-test scorer. -/
theorem score_tests_eq_map (b : KubiosData) (l : List TriggerTestResult)
    (hz : ¬(b.rmssd = 0 ∨ b.sdnn = 0 ∨ b.total_power = 0)) :
    score_tests b l = some (l.map (score_pure b)) := by
  induction l with
  | nil => simp [score_tests]
  | cons t rest ih =>
    simp [score_tests, score_test, calculate_reactivity_index,
      classify_stress_response, hz, ih, score_pure]

/-- Inversion of a successful `classify_with_triggers` call. -/
theorem classify_with_triggers_inv {c : VagalProfileClassifier}
    {mm : MultiTriggerMeasurement} {a : BehavioralAssessment}
    {p : VagalProfile} {ts : List TriggerTestResult}
    (h : c.classify_with_triggers mm a = some (p, ts)) :
    score_tests mm.baseline mm.trigger_tests = some ts ∧
      p = assemble_trigger_profile c mm.baseline mm.final_recovery a ts := by
  unfold VagalProfileClassifier.classify_with_triggers at h
  cases hst : score_tests mm.baseline mm.trigger_tests with
  | none => rw [hst] at h; cases h
  | some val =>
    rw [hst] at h
    simp only [Option.some.injEq, Prod.mk.injEq] at h
    obtain ⟨h1, h2⟩ := h
    subst h2
    exact ⟨rfl, h1.symm⟩

/-- `classify_with_triggers` fails exactly when its trigger loop does. -/
theorem classify_with_triggers_none_iff (c : VagalProfileClassifier)
    (mm : MultiTriggerMeasurement) (a : BehavioralAssessment) :
    c.classify_with_triggers mm a = none ↔
      score_tests mm.baseline mm.trigger_tests = none := by
  unfold VagalProfileClassifier.classify_with_triggers
  cases score_tests mm.baseline mm.trigger_tests <;> simp

/-! Claim theorems. -/

/-- Claim C1: with positive baseline RMSSD, SDNN and total power,
`classify_stress_response` returns exactly the spec's ordered rule set
(first match wins) evaluated at the percent changes of RMSSD, SDNN and
total power and at the LF/HF ratio difference. -/
theorem C1_stress_response_follows_spec (baseline stress : KubiosData)
    (hr : 0 < baseline.rmssd) (hs : 0 < baseline.sdnn)
    (ht : 0 < baseline.total_power) :
    classify_stress_response baseline stress =
      some (spec_stress_response
        ((stress.rmssd - baseline.rmssd) / baseline.rmssd * 100)
        (stress.lf_hf_ratio - baseline.lf_hf_ratio)
        ((stress.sdnn - baseline.sdnn) / baseline.sdnn * 100)
        ((stress.total_power - baseline.total_power) / baseline.total_power * 100)) := by
  unfold classify_stress_response
  rw [if_neg]
  · rfl
  · push_neg
    exact ⟨ne_of_gt hr, ne_of_gt hs, ne_of_gt ht⟩

/-- Witness for C1 at a concrete input. -/
theorem C1_witness :
    classify_stress_response sample_baseline stress_mild =
      some (spec_stress_response
        ((stress_mild.rmssd - sample_baseline.rmssd) / sample_baseline.rmssd * 100)
        (stress_mild.lf_hf_ratio - sample_baseline.lf_hf_ratio)
        ((stress_mild.sdnn - sample_baseline.sdnn) / sample_baseline.sdnn * 100)
        ((stress_mild.total_power - sample_baseline.total_power) /
          sample_baseline.total_power * 100)) :=
  C1_stress_response_follows_spec sample_baseline stress_mild
    (by norm_num [sample_baseline]) (by norm_num [sample_baseline])
    (by norm_num [sample_baseline])

/-- Claim C3: recovery speed returns exactly 100 when the RMSSD drop is
below 0.1 in magnitude, otherwise the clamped ratio, and always lies in
the interval from 0 to 150. -/
theorem C3_recovery_speed_spec (baseline stress recovery : KubiosData) :
    (|baseline.rmssd - stress.rmssd| < 1/10 →
      calculate_recovery_speed baseline stress recovery = 100) ∧
    (¬ |baseline.rmssd - stress.rmssd| < 1/10 →
      calculate_recovery_speed baseline stress recovery =
        min (max ((recovery.rmssd - stress.rmssd) /
          (baseline.rmssd - stress.rmssd) * 100) 0) 150) ∧
    0 ≤ calculate_recovery_speed baseline stress recovery ∧
    calculate_recovery_speed baseline stress recovery ≤ 150 := by
  simp only [calculate_recovery_speed]
  refine ⟨fun h => if_pos h, fun h => if_neg h, ?_, ?_⟩ <;> split_ifs with h
  · norm_num
  · exact le_min (le_max_right _ _) (by norm_num)
  · norm_num
  · exact min_le_right _ _

/-- Witness for C3 at a concrete input. -/
theorem C3_witness :
    calculate_recovery_speed sample_baseline sample_baseline sample_baseline = 100 :=
  (C3_recovery_speed_spec sample_baseline sample_baseline sample_baseline).1
    (by norm_num [sample_baseline])

/-- Claim C7: coherence only takes the values 0, 1/2 and 1; it is 1 iff
all three states are identical, 1/2 iff exactly two of the three are
equal, and 0 iff all three are pairwise distinct. -/
theorem C7_coherence_characterization (p b s : VagalState) :
    (calculate_coherence p b s = 0 ∨ calculate_coherence p b s = 1/2 ∨
      calculate_coherence p b s = 1) ∧
    (calculate_coherence p b s = 1 ↔ (p = b ∧ b = s)) ∧
    (calculate_coherence p b s = 1/2 ↔
      ((p = b ∨ b = s ∨ p = s) ∧ ¬(p = b ∧ b = s))) ∧
    (calculate_coherence p b s = 0 ↔ (p ≠ b ∧ b ≠ s ∧ p ≠ s)) := by
  cases p <;> cases b <;> cases s <;> simp +decide [calculate_coherence]

/-- Claim C2: `classify_physiological_state` follows the spec's two
stage procedure (dorsal-marker score with Dorsal iff it reaches 3, then
weighted voting with ties to Sympathetic); in particular any snapshot
with SDNN and total power at or below the very-low thresholds and
SD1 ≤ 10, SD2 ≤ 20 is classified Dorsal. -/
theorem C2_physiological_follows_spec (c : VagalProfileClassifier)
    (data : KubiosData) :
    c.classify_physiological_state data = spec_physiological_state c data ∧
    (data.sdnn ≤ c.SDNN_VERY_LOW → data.total_power ≤ c.TP_VERY_LOW →
      data.sd1 ≤ 10 → data.sd2 ≤ 20 →
      c.classify_physiological_state data = VagalState.DORSAL) := by
  have hdorsal : c.is_dorsal_pattern data = true ↔ 3 ≤ spec_dorsal_score c data := by
    simp [VagalProfileClassifier.is_dorsal_pattern, spec_dorsal_score,
      decide_eq_true_eq]
  constructor
  · by_cases hd : 3 ≤ spec_dorsal_score c data
    · rw [VagalProfileClassifier.classify_physiological_state,
        spec_physiological_state, if_pos (hdorsal.mpr hd), if_pos hd]
    · rw [VagalProfileClassifier.classify_physiological_state,
        spec_physiological_state, if_neg (fun hc => hd (hdorsal.mp hc)), if_neg hd]
      simp only [spec_ventral_votes, spec_sympathetic_votes]
      split_ifs <;> rfl
  · intro h1 h2 h3 h4
    have hd : c.is_dorsal_pattern data = true := by
      rw [hdorsal]
      simp only [spec_dorsal_score, if_pos h1, if_pos h2, if_pos (And.intro h3 h4)]
      omega
    rw [VagalProfileClassifier.classify_physiological_state, if_pos hd]

/-- Witness for C2 at a concrete input. -/
theorem C2_witness :
    default_classifier.classify_physiological_state flat_snapshot =
      VagalState.DORSAL :=
  (C2_physiological_follows_spec default_classifier flat_snapshot).2
    (by norm_num [flat_snapshot, sample_baseline, default_classifier])
    (by norm_num [flat_snapshot, sample_baseline, default_classifier])
    (by norm_num [flat_snapshot, sample_baseline, default_classifier])
    (by norm_num [flat_snapshot, sample_baseline, default_classifier])

/-- Counterexample to claim C4: a behavioral score outside 1-5 and a
negative (≤ 0) baseline RMSSD are both accepted silently — `classify`
returns a Profile instead of failing. -/
theorem C4_counterexample :
    (default_classifier.classify sample_three_phase out_of_range_behavioral).isSome = true ∧
    out_of_range_behavioral.eye_contact = 6 ∧
    (default_classifier.classify negative_three_phase sample_behavioral).isSome = true ∧
    negative_three_phase.baseline.rmssd = -10 := by
  refine ⟨?_, rfl, ?_, rfl⟩ <;>
    norm_num [VagalProfileClassifier.classify, classify_stress_response,
      calculate_reactivity_index, sample_three_phase, negative_three_phase,
      sample_baseline, stress_mild]

/-- Amended claim C4: neither entry point validates its inputs.
`classify` fails (modelling the `ZeroDivisionError`) exactly when a
baseline RMSSD, SDNN or total power equals zero — negative values,
out-of-range behavioral scores and the like are accepted and produce a
Profile — and `classify_with_triggers` fails exactly when additionally
at least one trigger test is present. -/
theorem C4_amended_no_validation (c : VagalProfileClassifier)
    (m : ThreePhaseMeasurement) (mm : MultiTriggerMeasurement)
    (a b : BehavioralAssessment) :
    (c.classify m a = none ↔
      (m.baseline.rmssd = 0 ∨ m.baseline.sdnn = 0 ∨ m.baseline.total_power = 0)) ∧
    (c.classify_with_triggers mm b = none ↔
      (mm.trigger_tests ≠ [] ∧
        (mm.baseline.rmssd = 0 ∨ mm.baseline.sdnn = 0 ∨ mm.baseline.total_power = 0))) := by
  constructor
  · by_cases hz : m.baseline.rmssd = 0 ∨ m.baseline.sdnn = 0 ∨ m.baseline.total_power = 0
    · simp [VagalProfileClassifier.classify, classify_stress_response, hz]
    · simp [VagalProfileClassifier.classify, classify_stress_response,
        calculate_reactivity_index, hz]
  · rw [classify_with_triggers_none_iff]
    exact score_tests_eq_none mm.baseline mm.trigger_tests

/-- Claim C9: with an empty trigger-test list (and a valid baseline),
`classify_with_triggers` returns a Profile — primary trigger UNKNOWN, no
secondary trigger, empty sensitivity map — rather than an error. -/
theorem C9_empty_trigger_set (c : VagalProfileClassifier)
    (mm : MultiTriggerMeasurement) (a : BehavioralAssessment)
    (h : mm.trigger_tests = [])
    (h1 : 0 < mm.baseline.rmssd) (h2 : 0 < mm.baseline.sdnn)
    (h3 : 0 < mm.baseline.total_power) :
    ∃ p, c.classify_with_triggers mm a = some (p, []) ∧
      p.primary_trigger = TriggerType.UNKNOWN ∧
      p.secondary_trigger = none ∧
      p.trigger_sensitivity_map = [] := by
  refine ⟨assemble_trigger_profile c mm.baseline mm.final_recovery a [],
    ?_, ?_, ?_, ?_⟩
  · unfold VagalProfileClassifier.classify_with_triggers
    rw [h]
    rfl
  · simp [assemble_trigger_profile, build_sensitivity_map, sorted_desc]
  · simp [assemble_trigger_profile, build_sensitivity_map, sorted_desc]
  · simp [assemble_trigger_profile, build_sensitivity_map]

/-- Witness for C9 at a concrete input. -/
theorem C9_witness :
    ∃ p, default_classifier.classify_with_triggers empty_trigger_measurement
        sample_behavioral = some (p, []) ∧
      p.primary_trigger = TriggerType.UNKNOWN ∧
      p.secondary_trigger = none ∧
      p.trigger_sensitivity_map = [] :=
  C9_empty_trigger_set default_classifier empty_trigger_measurement
    sample_behavioral rfl
    (by norm_num [empty_trigger_measurement, sample_baseline])
    (by norm_num [empty_trigger_measurement, sample_baseline])
    (by norm_num [empty_trigger_measurement, sample_baseline])

/-- Counterexample to claim C5: `classify_with_triggers` overwrites the
`reactivity_score` of the supplied trigger tests — the test goes in with
score 0 and comes back with score 200. -/
theorem C5_counterexample :
    (default_classifier.classify_with_triggers single_trigger_measurement
        sample_behavioral).map (fun r => r.2.map fun t => t.reactivity_score) =
      some [200] ∧
    single_trigger_measurement.trigger_tests.map (fun t => t.reactivity_score) = [0] := by
  constructor
  · norm_num [VagalProfileClassifier.classify_with_triggers, score_tests, score_test,
      calculate_reactivity_index, raw_reactivity_index, classify_stress_response,
      single_trigger_measurement, sample_baseline, stress_strong]
  · norm_num [single_trigger_measurement]

/-- Amended claim C5: `classify_with_triggers` keeps every test's
`trigger_type`, `stress_data` and `recovery_speed` intact but overwrites
its `reactivity_score` and `response_type` with the computed values (the
returned list models the post-call state of the input objects). -/
theorem C5_mutation_amended (c : VagalProfileClassifier)
    (mm : MultiTriggerMeasurement) (a : BehavioralAssessment)
    (p : VagalProfile) (ts : List TriggerTestResult)
    (h : c.classify_with_triggers mm a = some (p, ts)) :
    ts.map (fun t => (t.trigger_type, t.stress_data, t.recovery_speed)) =
      mm.trigger_tests.map (fun t => (t.trigger_type, t.stress_data, t.recovery_speed)) ∧
    ∀ t ∈ ts,
      calculate_reactivity_index mm.baseline t.stress_data = some t.reactivity_score ∧
      classify_stress_response mm.baseline t.stress_data = t.response_type := by
  obtain ⟨hst, -⟩ := classify_with_triggers_inv h
  by_cases hz : mm.baseline.rmssd = 0 ∨ mm.baseline.sdnn = 0 ∨ mm.baseline.total_power = 0
  · have hnil : mm.trigger_tests = [] := by
      by_contra hne
      have hnone := (score_tests_eq_none mm.baseline mm.trigger_tests).mpr ⟨hne, hz⟩
      rw [hst] at hnone
      cases hnone
    rw [hnil] at hst
    simp only [score_tests, Option.some.injEq] at hst
    rw [hnil, ← hst]
    simp
  · rw [score_tests_eq_map mm.baseline mm.trigger_tests hz,
      Option.some.injEq] at hst
    subst hst
    constructor
    · rw [List.map_map]
      exact List.map_congr_left fun t _ => rfl
    · intro t ht
      obtain ⟨u, hu, rfl⟩ := List.mem_map.mp ht
      simp [score_pure, calculate_reactivity_index, classify_stress_response, hz]

/-- Witness for C5 (amended) at a concrete input. -/
theorem C5_witness :
    single_scored.map (fun t => (t.trigger_type, t.stress_data, t.recovery_speed)) =
      single_trigger_measurement.trigger_tests.map
        (fun t => (t.trigger_type, t.stress_data, t.recovery_speed)) ∧
    ∀ t ∈ single_scored,
      calculate_reactivity_index single_trigger_measurement.baseline t.stress_data =
        some t.reactivity_score ∧
      classify_stress_response single_trigger_measurement.baseline t.stress_data =
        t.response_type :=
  C5_mutation_amended default_classifier single_trigger_measurement
    sample_behavioral single_profile single_scored
    (by norm_num [VagalProfileClassifier.classify_with_triggers, score_tests,
      score_test, calculate_reactivity_index, raw_reactivity_index,
      classify_stress_response, raw_stress_response, assemble_trigger_profile,
      build_sensitivity_map, build_response_map, dict_insert, dict_get,
      sorted_desc, insert_desc, python_max_test, calculate_recovery_speed,
      calculate_coherence, VagalProfileClassifier.classify_physiological_state,
      VagalProfileClassifier.is_dorsal_pattern,
      VagalProfileClassifier.classify_behavioral_presentation,
      single_trigger_measurement, single_profile, single_scored,
      sample_baseline, stress_strong, sample_behavioral, default_classifier])

/-! Ranking machinery: the stable descending sort and the dict built by
the trigger loop. -/

/-- `insert_desc` is a permutation of pushing in front. -/
theorem insert_desc_perm (x : TriggerType × ℚ) (l : List (TriggerType × ℚ)) :
    List.Perm (insert_desc x l) (x :: l) := by
  induction l with
  | nil => exact List.Perm.refl _
  | cons y ys ih =>
    rw [insert_desc]
    split_ifs with hc
    · exact (ih.cons y).trans (List.Perm.swap x y ys)
    · exact List.Perm.refl _

/-- `insert_desc` preserves the descending order on scores. -/
theorem insert_desc_pairwise (x : TriggerType × ℚ) (l : List (TriggerType × ℚ))
    (h : l.Pairwise (fun a b => b.2 ≤ a.2)) :
    (insert_desc x l).Pairwise (fun a b => b.2 ≤ a.2) := by
  induction l with
  | nil => simp [insert_desc]
  | cons y ys ih =>
    rw [List.pairwise_cons] at h
    obtain ⟨hy, hys⟩ := h
    rw [insert_desc]
    split_ifs with hc
    · rw [List.pairwise_cons]
      refine ⟨fun z hz => ?_, ih hys⟩
      rcases List.mem_cons.mp ((insert_desc_perm x ys).subset hz) with rfl | hzy
      · exact le_of_lt hc
      · exact hy z hzy
    · rw [List.pairwise_cons]
      refine ⟨fun z hz => ?_, List.pairwise_cons.mpr ⟨hy, hys⟩⟩
      rcases List.mem_cons.mp hz with rfl | hzy
      · exact not_lt.mp hc
      · exact le_trans (hy z hzy) (not_lt.mp hc)

/-- The stable descending sort is a permutation. -/
theorem sorted_desc_perm (l : List (TriggerType × ℚ)) :
    List.Perm (sorted_desc l) l := by
  induction l with
  | nil => exact List.Perm.refl _
  | cons x xs ih => exact (insert_desc_perm x (sorted_desc xs)).trans (ih.cons x)

/-- The stable descending sort is descending on scores. -/
theorem sorted_desc_pairwise (l : List (TriggerType × ℚ)) :
    (sorted_desc l).Pairwise (fun a b => b.2 ≤ a.2) := by
  induction l with
  | nil => simp [sorted_desc]
  | cons x xs ih => exact insert_desc_pairwise x (sorted_desc xs) ih

/-- A member of `dict_insert m k v` either has key `k` or was in `m`. -/
theorem dict_insert_key_mem {α : Type} (m : List (TriggerType × α))
    (k : TriggerType) (v : α) (x : TriggerType × α)
    (hx : x ∈ dict_insert m k v) : x.1 = k ∨ x ∈ m := by
  induction m with
  | nil =>
    rw [dict_insert] at hx
    rw [List.mem_singleton.mp hx]
    exact Or.inl rfl
  | cons y ys ih =>
    rw [dict_insert] at hx
    split_ifs at hx with he
    · rcases List.mem_cons.mp hx with rfl | hx'
      · exact Or.inl rfl
      · exact Or.inr (List.mem_cons_of_mem y hx')
    · rcases List.mem_cons.mp hx with rfl | hx'
      · exact Or.inr (List.mem_cons_self _ _)
      · rcases ih hx' with h1 | h2
        · exact Or.inl h1
        · exact Or.inr (List.mem_cons_of_mem y h2)

/-- Keys of the dict built by the trigger loop come from the initial
dict or from the tested trigger types. -/
theorem foldl_dict_insert_key_mem {α : Type} (f : TriggerTestResult → α)
    (l : List TriggerTestResult) (acc : List (TriggerType × α))
    (x : TriggerType × α)
    (hx : x ∈ l.foldl (fun m t => dict_insert m t.trigger_type (f t)) acc) :
    x ∈ acc ∨ x.1 ∈ l.map (fun t => t.trigger_type) := by
  induction l generalizing acc with
  | nil => exact Or.inl (by simpa using hx)
  | cons t rest ih =>
    rw [List.foldl_cons] at hx
    rcases ih _ hx with hacc | hrest
    · rcases dict_insert_key_mem _ _ _ _ hacc with h1 | h2
      · exact Or.inr (by simp [h1])
      · exact Or.inl h2
    · exact Or.inr (by simp [hrest])

/-- Inserting a fresh key appends. -/
theorem dict_insert_fresh {α : Type} (m : List (TriggerType × α))
    (k : TriggerType) (v : α) (h : ∀ q ∈ m, q.1 ≠ k) :
    dict_insert m k v = m ++ [(k, v)] := by
  induction m with
  | nil => rfl
  | cons y ys ih =>
    rw [dict_insert, if_neg (h y (List.mem_cons_self _ _)),
      ih (fun q hq => h q (List.mem_cons_of_mem y hq))]
    rfl

/-- With pairwise distinct trigger types the dict built by the trigger
loop is just the association list of the tests, in order. -/
theorem foldl_dict_insert_eq_map {α : Type} (f : TriggerTestResult → α)
    (l : List TriggerTestResult) (acc : List (TriggerType × α))
    (hfresh : ∀ t ∈ l, ∀ q ∈ acc, q.1 ≠ t.trigger_type)
    (hdist : (l.map (fun t => t.trigger_type)).Nodup) :
    l.foldl (fun m t => dict_insert m t.trigger_type (f t)) acc =
      acc ++ l.map (fun t => (t.trigger_type, f t)) := by
  induction l generalizing acc with
  | nil => simp
  | cons t rest ih =>
    have hfresh' : ∀ u ∈ rest, ∀ q ∈ acc ++ [(t.trigger_type, f t)],
        q.1 ≠ u.trigger_type := by
      intro u hu q hq
      rcases List.mem_append.mp hq with hq1 | hq2
      · exact hfresh u (List.mem_cons_of_mem t hu) q hq1
      · rw [List.mem_singleton.mp hq2]
        intro he
        have he' : t.trigger_type = u.trigger_type := he
        have : t.trigger_type ∈ rest.map (fun t => t.trigger_type) := by
          rw [he']
          exact List.mem_map_of_mem _ hu
        exact (List.nodup_cons.mp hdist).1 this
    rw [List.foldl_cons,
      dict_insert_fresh acc t.trigger_type (f t)
        (fun q hq => hfresh t (List.mem_cons_self _ _) q hq),
      ih (acc ++ [(t.trigger_type, f t)]) hfresh' (List.nodup_cons.mp hdist).2,
      List.append_assoc]
    simp

/-- `build_sensitivity_map` with distinct trigger types. -/
theorem build_sensitivity_map_eq (ts : List TriggerTestResult)
    (hdist : (ts.map (fun t => t.trigger_type)).Nodup) :
    build_sensitivity_map ts =
      ts.map (fun t => (t.trigger_type, t.reactivity_score)) := by
  have h := foldl_dict_insert_eq_map (fun t => t.reactivity_score) ts []
    (by simp) hdist
  simpa [build_sensitivity_map] using h

/-- `build_response_map` with distinct trigger types. -/
theorem build_response_map_eq (ts : List TriggerTestResult)
    (hdist : (ts.map (fun t => t.trigger_type)).Nodup) :
    build_response_map ts =
      ts.map (fun t =>
        (t.trigger_type, t.response_type.getD VagalState.SYMPATHETIC)) := by
  have h := foldl_dict_insert_eq_map
    (fun t => t.response_type.getD VagalState.SYMPATHETIC) ts [] (by simp) hdist
  simpa [build_response_map] using h

/-- Dict lookup over the association list of the tests. -/
theorem dict_get_map {α : Type} (g : TriggerTestResult → α)
    (l : List TriggerTestResult) (t : TriggerTestResult)
    (hdist : (l.map (fun u => u.trigger_type)).Nodup) (ht : t ∈ l) :
    dict_get (l.map (fun u => (u.trigger_type, g u))) t.trigger_type =
      some (g t) := by
  induction l with
  | nil => cases ht
  | cons u rest ih =>
    rcases List.mem_cons.mp ht with rfl | ht'
    · simp [dict_get]
    · have hne : u.trigger_type ≠ t.trigger_type := by
        intro he
        apply (List.nodup_cons.mp hdist).1
        show u.trigger_type ∈ rest.map (fun u => u.trigger_type)
        rw [he]
        exact List.mem_map_of_mem _ ht'
      simp [dict_get, hne, ih (List.nodup_cons.mp hdist).2 ht']

/-- Scoring a test keeps its trigger type. -/
theorem score_test_type (b : KubiosData) (t t' : TriggerTestResult)
    (h : score_test b t = some t') : t'.trigger_type = t.trigger_type := by
  unfold score_test at h
  cases h1 : calculate_reactivity_index b t.stress_data with
  | none => rw [h1] at h; cases h
  | some r =>
    cases h2 : classify_stress_response b t.stress_data with
    | none => rw [h1, h2] at h; cases h
    | some resp =>
      rw [h1, h2] at h
      injection h with h3
      rw [← h3]

/-- The trigger loop keeps the list of trigger types. -/
theorem score_tests_types (b : KubiosData) (l l' : List TriggerTestResult)
    (h : score_tests b l = some l') :
    l'.map (fun t => t.trigger_type) = l.map (fun t => t.trigger_type) := by
  induction l generalizing l' with
  | nil =>
    simp only [score_tests, Option.some.injEq] at h
    rw [← h]
  | cons t rest ih =>
    rw [score_tests] at h
    cases h1 : score_test b t with
    | none => rw [h1] at h; cases h
    | some t' =>
      cases h2 : score_tests b rest with
      | none => rw [h1, h2] at h; cases h
      | some rest' =>
        rw [h1, h2] at h
        injection h with h3
        rw [← h3]
        simp [score_test_type b t t' h1, ih rest' h2]

/-- Python's `max(tests, key=reactivity_score)`: the result is drawn
from the candidates and dominates all of them. -/
theorem python_max_test_spec (best : TriggerTestResult)
    (l : List TriggerTestResult) :
    (python_max_test best l = best ∨ python_max_test best l ∈ l) ∧
    best.reactivity_score ≤ (python_max_test best l).reactivity_score ∧
    ∀ u ∈ l, u.reactivity_score ≤ (python_max_test best l).reactivity_score := by
  induction l generalizing best with
  | nil => exact ⟨Or.inl rfl, le_refl _, by simp⟩
  | cons t rest ih =>
    rw [python_max_test]
    obtain ⟨hmem, hbest, hall⟩ :=
      ih (if best.reactivity_score < t.reactivity_score then t else best)
    refine ⟨?_, ?_, ?_⟩
    · rcases hmem with h | h
      · rw [h]
        split_ifs with hc
        · exact Or.inr (List.mem_cons_self _ _)
        · exact Or.inl rfl
      · exact Or.inr (List.mem_cons_of_mem _ h)
    · refine le_trans ?_ hbest
      split_ifs with hc
      · exact le_of_lt hc
      · exact le_refl _
    · intro u hu
      rcases List.mem_cons.mp hu with rfl | hu'
      · refine le_trans ?_ hbest
        split_ifs with hc
        · exact le_refl _
        · exact not_lt.mp hc
      · exact hall u hu'

/-- Ranking facts of `assemble_trigger_profile` on a nonempty scored
list with pairwise distinct trigger types: the primary trigger attains
the maximal reactivity score (which becomes the reactivity index), the
stress response is the primary test's, and the secondary trigger is
governed by the 60%-of-primary rule over the other tests. -/
theorem assemble_ranking_spec (c : VagalProfileClassifier) (b : KubiosData)
    (fr : Option KubiosData) (a : BehavioralAssessment)
    (ts : List TriggerTestResult) (hne : ts ≠ [])
    (hdist : (ts.map (fun t => t.trigger_type)).Nodup) :
    (∃ t ∈ ts,
      (assemble_trigger_profile c b fr a ts).primary_trigger = t.trigger_type ∧
      (assemble_trigger_profile c b fr a ts).reactivity_index = t.reactivity_score ∧
      (assemble_trigger_profile c b fr a ts).stress_response =
        t.response_type.getD VagalState.SYMPATHETIC ∧
      ∀ u ∈ ts, u.reactivity_score ≤ t.reactivity_score) ∧
    ((assemble_trigger_profile c b fr a ts).secondary_trigger ≠ none ↔
      ∃ u ∈ ts,
        u.trigger_type ≠ (assemble_trigger_profile c b fr a ts).primary_trigger ∧
        (assemble_trigger_profile c b fr a ts).reactivity_index * (3/5) ≤
          u.reactivity_score) ∧
    (∀ s, (assemble_trigger_profile c b fr a ts).secondary_trigger = some s →
      ∃ u ∈ ts, u.trigger_type = s ∧
        u.trigger_type ≠ (assemble_trigger_profile c b fr a ts).primary_trigger ∧
        (assemble_trigger_profile c b fr a ts).reactivity_index * (3/5) ≤
          u.reactivity_score ∧
        ∀ v ∈ ts,
          v.trigger_type ≠ (assemble_trigger_profile c b fr a ts).primary_trigger →
          v.reactivity_score ≤ u.reactivity_score) := by
  have hsmap : build_sensitivity_map ts =
      ts.map (fun t => (t.trigger_type, t.reactivity_score)) :=
    build_sensitivity_map_eq ts hdist
  rcases hsort : sorted_desc (build_sensitivity_map ts) with _ | ⟨e, rest⟩
  · exfalso
    have hperm := sorted_desc_perm (build_sensitivity_map ts)
    rw [hsort] at hperm
    have hnil : build_sensitivity_map ts = [] := hperm.symm.eq_nil
    rw [hsmap] at hnil
    exact hne (List.map_eq_nil.mp hnil)
  · have hperm : List.Perm (e :: rest)
        (ts.map (fun t => (t.trigger_type, t.reactivity_score))) := by
      rw [← hsmap, ← hsort]
      exact sorted_desc_perm _
    have hpair : (e :: rest).Pairwise (fun x y => y.2 ≤ x.2) := by
      rw [← hsort]
      exact sorted_desc_pairwise _
    obtain ⟨te, hte, rfl⟩ := List.mem_map.mp (hperm.subset (List.mem_cons_self _ _))
    have hpairmem : ∀ u ∈ ts, (u.trigger_type, u.reactivity_score) ∈
        (te.trigger_type, te.reactivity_score) :: rest := fun u hu =>
      hperm.mem_iff.mpr (List.mem_map_of_mem _ hu)
    have hdom : ∀ u ∈ ts, u.reactivity_score ≤ te.reactivity_score := by
      intro u hu
      rcases List.mem_cons.mp (hpairmem u hu) with heq | hmem
      · exact le_of_eq (congrArg Prod.snd heq)
      · exact (List.pairwise_cons.mp hpair).1 _ hmem
    have hprim : (assemble_trigger_profile c b fr a ts).primary_trigger =
        te.trigger_type := by
      simp [assemble_trigger_profile, hsort]
    have hreact : (assemble_trigger_profile c b fr a ts).reactivity_index =
        te.reactivity_score := by
      simp [assemble_trigger_profile, hsort]
    have hstress : (assemble_trigger_profile c b fr a ts).stress_response =
        te.response_type.getD VagalState.SYMPATHETIC := by
      have hget : dict_get (build_response_map ts) te.trigger_type =
          some (te.response_type.getD VagalState.SYMPATHETIC) := by
        rw [build_response_map_eq ts hdist]
        exact dict_get_map _ ts te hdist hte
      simp [assemble_trigger_profile, hsort, hget]
    rcases rest with _ | ⟨f, rest2⟩
    · -- only one ranked trigger: no secondary
      have hsec : (assemble_trigger_profile c b fr a ts).secondary_trigger =
          none := by
        simp [assemble_trigger_profile, hsort]
      refine ⟨⟨te, hte, hprim, hreact, hstress, hdom⟩, ?_, ?_⟩
      · rw [hsec, hprim]
        simp only [ne_eq, not_true_eq_false, false_iff]
        rintro ⟨u, hu, hneu, -⟩
        apply hneu
        rcases List.mem_cons.mp (hpairmem u hu) with heq | hmem
        · exact congrArg Prod.fst heq
        · cases hmem
      · intro s hs
        rw [hsec] at hs
        cases hs
    · -- at least two ranked triggers
      obtain ⟨tf, htf, rfl⟩ :=
        List.mem_map.mp (hperm.subset (List.mem_cons_of_mem _ (List.mem_cons_self _ _)))
      have hkeys_smap :
          ((ts.map (fun t => (t.trigger_type, t.reactivity_score))).map Prod.fst).Nodup := by
        rw [List.map_map]
        exact hdist
      have hkeys2 : (te.trigger_type :: tf.trigger_type :: rest2.map Prod.fst).Nodup := by
        have := (hperm.map Prod.fst).nodup_iff.mpr hkeys_smap
        simpa using this
      have hne_ef : te.trigger_type ≠ tf.trigger_type := by
        intro he
        exact (List.nodup_cons.mp hkeys2).1 (by rw [he]; exact List.mem_cons_self _ _)
      have hdom2 : ∀ v ∈ ts, v.trigger_type ≠ te.trigger_type →
          v.reactivity_score ≤ tf.reactivity_score := by
        intro v hv hvne
        rcases List.mem_cons.mp (hpairmem v hv) with heq | hmem
        · exact absurd (congrArg Prod.fst heq) hvne
        · rcases List.mem_cons.mp hmem with heq2 | hmem2
          · exact le_of_eq (congrArg Prod.snd heq2)
          · exact (List.pairwise_cons.mp (List.pairwise_cons.mp hpair).2).1 _ hmem2
      have hsec : (assemble_trigger_profile c b fr a ts).secondary_trigger =
          (if te.reactivity_score * (3/5) ≤ tf.reactivity_score then
            some tf.trigger_type else none) := by
        simp [assemble_trigger_profile, hsort]
      refine ⟨⟨te, hte, hprim, hreact, hstress, hdom⟩, ?_, ?_⟩
      · rw [hsec, hprim, hreact]
        by_cases hth : te.reactivity_score * (3/5) ≤ tf.reactivity_score
        · rw [if_pos hth]
          exact iff_of_true (by simp) ⟨tf, htf, hne_ef.symm, hth⟩
        · rw [if_neg hth]
          refine iff_of_false (by simp) ?_
          rintro ⟨u, hu, hune, huth⟩
          exact hth (le_trans huth (hdom2 u hu hune))
      · intro s hs
        rw [hsec] at hs
        by_cases hth : te.reactivity_score * (3/5) ≤ tf.reactivity_score
        · rw [if_pos hth] at hs
          injection hs with hs'
          refine ⟨tf, htf, hs', ?_, ?_, ?_⟩
          · rw [hprim]
            exact hne_ef.symm
          · rw [hreact]
            exact hth
          · intro v hv hvne
            rw [hprim] at hvne
            exact hdom2 v hv hvne
        · rw [if_neg hth] at hs
          cases hs

/-- The profile formula agrees with the claim's description whenever a
set secondary trigger is a known type and an unknown primary comes with
no secondary. -/
theorem get_full_formula_eq_claim (p : VagalProfile)
    (hsec : ∀ s, p.secondary_trigger = some s → s ≠ TriggerType.UNKNOWN)
    (hps : p.primary_trigger = TriggerType.UNKNOWN → p.secondary_trigger = none) :
    p.get_full_formula = claim_formula p := by
  by_cases hpu : p.primary_trigger = TriggerType.UNKNOWN
  · simp [VagalProfile.get_full_formula, claim_formula, hpu, hps hpu, join_comma]
  · cases hs : p.secondary_trigger with
    | none => simp [VagalProfile.get_full_formula, claim_formula, hpu, hs, join_comma]
    | some s =>
      have hsu := hsec s hs
      simp [VagalProfile.get_full_formula, claim_formula, hpu, hs, hsu, join_comma,
        String.append_assoc]

/-- Inversion of a successful `classify` call. -/
theorem classify_inv {c : VagalProfileClassifier} {m : ThreePhaseMeasurement}
    {a : BehavioralAssessment} {p : VagalProfile}
    (h : c.classify m a = some p) :
    ∃ sr ri, classify_stress_response m.baseline m.stress = some sr ∧
      calculate_reactivity_index m.baseline m.stress = some ri ∧
      p = { physiological_dominant := c.classify_physiological_state m.baseline
            behavioral_presentation := (c.classify_behavioral_presentation a).1
            is_pseudo := decide ((c.classify_behavioral_presentation a).1 =
              VagalState.VENTRAL ∧
              c.classify_physiological_state m.baseline ≠ VagalState.VENTRAL)
            stress_response := sr
            recovery_speed_percent :=
              calculate_recovery_speed m.baseline m.stress m.recovery
            reactivity_index := ri
            coherence_score := calculate_coherence
              (c.classify_physiological_state m.baseline)
              ((c.classify_behavioral_presentation a).1) sr
            primary_trigger := m.trigger_type.getD TriggerType.UNKNOWN
            secondary_trigger := none
            trigger_sensitivity_map := [] } := by
  unfold VagalProfileClassifier.classify at h
  cases h1 : classify_stress_response m.baseline m.stress with
  | none => rw [h1] at h; cases h
  | some sr =>
    cases h2 : calculate_reactivity_index m.baseline m.stress with
    | none => rw [h1, h2] at h; cases h
    | some ri =>
      rw [h1, h2] at h
      injection h with h3
      exact ⟨sr, ri, rfl, rfl, h3.symm⟩

/-- Counterexample to claim C6: testing ATTACHMENT twice makes the
sensitivity dict keep only the last ATTACHMENT score (0), so CONTROL
(reactivity 100) becomes the primary trigger even though an ATTACHMENT
test holds the strictly highest reactivity, 200. -/
theorem C6_counterexample :
    (default_classifier.classify_with_triggers duplicate_trigger_measurement
        sample_behavioral).map (fun r => r.1.primary_trigger) =
      some TriggerType.CONTROL ∧
    (default_classifier.classify_with_triggers duplicate_trigger_measurement
        sample_behavioral).map
        (fun r => r.2.map fun t => (t.trigger_type, t.reactivity_score)) =
      some [(TriggerType.ATTACHMENT, 200), (TriggerType.CONTROL, 100),
        (TriggerType.ATTACHMENT, 0)] := by
  constructor <;>
    norm_num [VagalProfileClassifier.classify_with_triggers, score_tests,
      score_test, calculate_reactivity_index, raw_reactivity_index,
      classify_stress_response, raw_stress_response, assemble_trigger_profile,
      build_sensitivity_map, build_response_map, dict_insert, dict_get,
      sorted_desc, insert_desc, duplicate_trigger_measurement, sample_baseline,
      stress_strong, stress_mild]

/-- Amended claim C6: for a multi-trigger measurement with at least one
trigger test whose trigger types are pairwise distinct, the primary
trigger is the type of a test attaining the maximal reactivity (which is
the reactivity index), the Profile's stress response is that primary
test's classified response, and a secondary trigger is set iff some
other tested trigger reaches 60% of the primary's reactivity — the
secondary being the highest-scoring such trigger. -/
theorem C6_trigger_selection_amended (c : VagalProfileClassifier)
    (mm : MultiTriggerMeasurement) (a : BehavioralAssessment)
    (p : VagalProfile) (ts : List TriggerTestResult)
    (h : c.classify_with_triggers mm a = some (p, ts))
    (hne : mm.trigger_tests ≠ [])
    (hdist : (mm.trigger_tests.map (fun t => t.trigger_type)).Nodup) :
    (∃ t ∈ ts, p.primary_trigger = t.trigger_type ∧
      p.reactivity_index = t.reactivity_score ∧
      t.response_type = some p.stress_response ∧
      ∀ u ∈ ts, u.reactivity_score ≤ t.reactivity_score) ∧
    (p.secondary_trigger ≠ none ↔
      ∃ u ∈ ts, u.trigger_type ≠ p.primary_trigger ∧
        p.reactivity_index * (3/5) ≤ u.reactivity_score) ∧
    (∀ s, p.secondary_trigger = some s →
      ∃ u ∈ ts, u.trigger_type = s ∧ u.trigger_type ≠ p.primary_trigger ∧
        p.reactivity_index * (3/5) ≤ u.reactivity_score ∧
        ∀ v ∈ ts, v.trigger_type ≠ p.primary_trigger →
          v.reactivity_score ≤ u.reactivity_score) := by
  obtain ⟨hst, hp⟩ := classify_with_triggers_inv h
  have hz : ¬(mm.baseline.rmssd = 0 ∨ mm.baseline.sdnn = 0 ∨
      mm.baseline.total_power = 0) := by
    intro hz0
    have hnone := (score_tests_eq_none mm.baseline mm.trigger_tests).mpr ⟨hne, hz0⟩
    rw [hst] at hnone
    cases hnone
  rw [score_tests_eq_map mm.baseline mm.trigger_tests hz,
    Option.some.injEq] at hst
  subst hp
  have hts_ne : ts ≠ [] := by
    rw [← hst]
    simpa using hne
  have hts_dist : (ts.map (fun t => t.trigger_type)).Nodup := by
    rw [← hst, List.map_map]
    have hco : ((fun t : TriggerTestResult => t.trigger_type) ∘
        score_pure mm.baseline) = fun t : TriggerTestResult => t.trigger_type :=
      funext fun t => rfl
    rw [hco]
    exact hdist
  obtain ⟨⟨t, ht, h1, h2, h3, h4⟩, hiff, hsome⟩ :=
    assemble_ranking_spec c mm.baseline mm.final_recovery a ts hts_ne hts_dist
  refine ⟨⟨t, ht, h1, h2, ?_, h4⟩, hiff, hsome⟩
  rw [← hst] at ht
  obtain ⟨u, hu, hut⟩ := List.mem_map.mp ht
  rw [h3, ← hut]
  rfl

/-- Witness for C6 (amended) at a concrete input. -/
theorem C6_witness :
    (∃ t ∈ distinct_scored, distinct_profile.primary_trigger = t.trigger_type ∧
      distinct_profile.reactivity_index = t.reactivity_score ∧
      t.response_type = some distinct_profile.stress_response ∧
      ∀ u ∈ distinct_scored, u.reactivity_score ≤ t.reactivity_score) ∧
    (distinct_profile.secondary_trigger ≠ none ↔
      ∃ u ∈ distinct_scored, u.trigger_type ≠ distinct_profile.primary_trigger ∧
        distinct_profile.reactivity_index * (3/5) ≤ u.reactivity_score) ∧
    (∀ s, distinct_profile.secondary_trigger = some s →
      ∃ u ∈ distinct_scored, u.trigger_type = s ∧
        u.trigger_type ≠ distinct_profile.primary_trigger ∧
        distinct_profile.reactivity_index * (3/5) ≤ u.reactivity_score ∧
        ∀ v ∈ distinct_scored, v.trigger_type ≠ distinct_profile.primary_trigger →
          v.reactivity_score ≤ u.reactivity_score) :=
  C6_trigger_selection_amended default_classifier distinct_trigger_measurement
    sample_behavioral distinct_profile distinct_scored
    (by norm_num [VagalProfileClassifier.classify_with_triggers, score_tests,
      score_test, calculate_reactivity_index, raw_reactivity_index,
      classify_stress_response, raw_stress_response, assemble_trigger_profile,
      build_sensitivity_map, build_response_map, dict_insert, dict_get,
      sorted_desc, insert_desc, python_max_test, calculate_recovery_speed,
      calculate_coherence, VagalProfileClassifier.classify_physiological_state,
      VagalProfileClassifier.is_dorsal_pattern,
      VagalProfileClassifier.classify_behavioral_presentation,
      distinct_trigger_measurement, distinct_profile, distinct_scored,
      sample_baseline, stress_strong, stress_medium, sample_behavioral,
      default_classifier, abs_div] <;> decide)
    (by simp [distinct_trigger_measurement])
    (by simp +decide [distinct_trigger_measurement])

/-- Counterexample to claim C8: a trigger test of UNKNOWN type can
qualify as secondary (150 ≥ 0.6 × 200), leaving the Profile with a set
secondary trigger that the formula omits — the formula reads
"S-S-S (Ta)", not "S-S-S (Ta, T?)". -/
theorem C8_counterexample :
    default_classifier.classify_with_triggers unknown_trigger_measurement
        sample_behavioral = some (unknown_profile, unknown_scored) ∧
    unknown_profile.secondary_trigger = some TriggerType.UNKNOWN ∧
    unknown_profile.get_full_formula = "S-S-S (Ta)" := by
  refine ⟨?_, rfl, by decide⟩
  norm_num [VagalProfileClassifier.classify_with_triggers, score_tests,
    score_test, calculate_reactivity_index, raw_reactivity_index,
    classify_stress_response, raw_stress_response, assemble_trigger_profile,
    build_sensitivity_map, build_response_map, dict_insert, dict_get,
    sorted_desc, insert_desc, python_max_test, calculate_recovery_speed,
    calculate_coherence, VagalProfileClassifier.classify_physiological_state,
    VagalProfileClassifier.is_dorsal_pattern,
    VagalProfileClassifier.classify_behavioral_presentation,
    unknown_trigger_measurement, unknown_profile, unknown_scored,
    sample_baseline, stress_strong, stress_medium, sample_behavioral,
    default_classifier, abs_div] <;> decide

/-- Amended claim C8: for every Profile produced by either assembler the
pseudo flag is true iff the behavioral presentation is Ventral while the
physiological dominant is not; the formula follows the claim's
description for `classify` unconditionally, and for
`classify_with_triggers` whenever no trigger test carries the UNKNOWN
type (an UNKNOWN-typed test can produce a set secondary trigger that the
formula omits). -/
theorem C8_pseudo_formula_amended :
    (∀ (c : VagalProfileClassifier) (m : ThreePhaseMeasurement)
        (a : BehavioralAssessment) (p : VagalProfile),
      c.classify m a = some p →
      ((p.is_pseudo = true ↔ (p.behavioral_presentation = VagalState.VENTRAL ∧
        p.physiological_dominant ≠ VagalState.VENTRAL)) ∧
      p.get_full_formula = claim_formula p)) ∧
    (∀ (c : VagalProfileClassifier) (mm : MultiTriggerMeasurement)
        (a : BehavioralAssessment) (p : VagalProfile)
        (ts : List TriggerTestResult),
      (∀ t ∈ mm.trigger_tests, t.trigger_type ≠ TriggerType.UNKNOWN) →
      c.classify_with_triggers mm a = some (p, ts) →
      ((p.is_pseudo = true ↔ (p.behavioral_presentation = VagalState.VENTRAL ∧
        p.physiological_dominant ≠ VagalState.VENTRAL)) ∧
      p.get_full_formula = claim_formula p)) := by
  constructor
  · intro c m a p h
    obtain ⟨sr, ri, h1, h2, rfl⟩ := classify_inv h
    refine ⟨by simp [decide_eq_true_eq], ?_⟩
    apply get_full_formula_eq_claim
    · intro s hs
      simp at hs
    · intro _
      rfl
  · intro c mm a p ts hunk h
    obtain ⟨hst, hp⟩ := classify_with_triggers_inv h
    subst hp
    have htypes : ∀ x ∈ ts, x.trigger_type ≠ TriggerType.UNKNOWN := by
      intro x hx
      have hmem : x.trigger_type ∈ mm.trigger_tests.map (fun t => t.trigger_type) := by
        rw [← score_tests_types mm.baseline _ _ hst]
        exact List.mem_map_of_mem _ hx
      obtain ⟨u, hu, hux⟩ := List.mem_map.mp hmem
      rw [← hux]
      exact hunk u hu
    have hkeys : ∀ x ∈ sorted_desc (build_sensitivity_map ts),
        x.1 ≠ TriggerType.UNKNOWN := by
      intro x hx
      have hx' : x ∈ build_sensitivity_map ts := (sorted_desc_perm _).subset hx
      rcases foldl_dict_insert_key_mem (fun t => t.reactivity_score) ts [] x hx'
        with h0 | hk
      · cases h0
      · obtain ⟨u, hu, huk⟩ := List.mem_map.mp hk
        rw [← huk]
        exact htypes u hu
    refine ⟨by simp [assemble_trigger_profile, decide_eq_true_eq], ?_⟩
    apply get_full_formula_eq_claim
    · intro s hs
      rcases hsort : sorted_desc (build_sensitivity_map ts) with _ | ⟨e, rest⟩
      · have hnone : (assemble_trigger_profile c mm.baseline mm.final_recovery a
            ts).secondary_trigger = none := by
          simp [assemble_trigger_profile, hsort]
        rw [hnone] at hs
        cases hs
      · rcases rest with _ | ⟨f, rest2⟩
        · have hnone : (assemble_trigger_profile c mm.baseline mm.final_recovery a
              ts).secondary_trigger = none := by
            simp [assemble_trigger_profile, hsort]
          rw [hnone] at hs
          cases hs
        · have hsec : (assemble_trigger_profile c mm.baseline mm.final_recovery a
              ts).secondary_trigger =
              (if e.2 * (3/5) ≤ f.2 then some f.1 else none) := by
            simp [assemble_trigger_profile, hsort]
          rw [hsec] at hs
          split_ifs at hs with hth
          injection hs with hs'
          rw [← hs']
          exact hkeys f (by
            rw [hsort]
            exact List.mem_cons_of_mem _ (List.mem_cons_self _ _))
    · intro hpu
      rcases hsort : sorted_desc (build_sensitivity_map ts) with _ | ⟨e, rest⟩
      · simp [assemble_trigger_profile, hsort]
      · exfalso
        have hprim : (assemble_trigger_profile c mm.baseline mm.final_recovery a
            ts).primary_trigger = e.1 := by
          simp [assemble_trigger_profile, hsort]
        rw [hprim] at hpu
        exact hkeys e (by rw [hsort]; exact List.mem_cons_self _ _) hpu

/-- Witness for C8 (amended) at a concrete input. -/
theorem C8_witness :
    (distinct_profile.is_pseudo = true ↔
      (distinct_profile.behavioral_presentation = VagalState.VENTRAL ∧
        distinct_profile.physiological_dominant ≠ VagalState.VENTRAL)) ∧
    distinct_profile.get_full_formula = claim_formula distinct_profile :=
  C8_pseudo_formula_amended.2 default_classifier distinct_trigger_measurement
    sample_behavioral distinct_profile distinct_scored
    (by simp +decide [distinct_trigger_measurement])
    (by norm_num [VagalProfileClassifier.classify_with_triggers, score_tests,
      score_test, calculate_reactivity_index, raw_reactivity_index,
      classify_stress_response, raw_stress_response, assemble_trigger_profile,
      build_sensitivity_map, build_response_map, dict_insert, dict_get,
      sorted_desc, insert_desc, python_max_test, calculate_recovery_speed,
      calculate_coherence, VagalProfileClassifier.classify_physiological_state,
      VagalProfileClassifier.is_dorsal_pattern,
      VagalProfileClassifier.classify_behavioral_presentation,
      distinct_trigger_measurement, distinct_profile, distinct_scored,
      sample_baseline, stress_strong, stress_medium, sample_behavioral,
      default_classifier, abs_div] <;> decide)

/-- The multi-trigger recovery speed defaults to 50 without a final
recovery snapshot or without trigger tests. -/
theorem assemble_recovery_default (c : VagalProfileClassifier) (b : KubiosData)
    (fr : Option KubiosData) (a : BehavioralAssessment)
    (ts : List TriggerTestResult) (h : fr = none ∨ ts = []) :
    (assemble_trigger_profile c b fr a ts).recovery_speed_percent = 50 := by
  rcases h with rfl | rfl
  · simp [assemble_trigger_profile]
  · cases fr <;> simp [assemble_trigger_profile]

/-- With a final recovery snapshot and a nonempty test list, the
recovery speed is computed against the strongest test's stress data. -/
theorem assemble_recovery_computed (c : VagalProfileClassifier) (b : KubiosData)
    (frv : KubiosData) (a : BehavioralAssessment) (t0 : TriggerTestResult)
    (rest : List TriggerTestResult) :
    (assemble_trigger_profile c b (some frv) a (t0 :: rest)).recovery_speed_percent =
      calculate_recovery_speed b (python_max_test t0 rest).stress_data frv := by
  simp [assemble_trigger_profile]

/-- Counterexample to claim C10: with the ATTACHMENT trigger tested
twice, the reactivity index is 100 while the maximal reactivity score
over the trigger tests is 200. -/
theorem C10_counterexample :
    (default_classifier.classify_with_triggers duplicate_trigger_measurement
        sample_behavioral).map (fun r => r.1.reactivity_index) = some 100 ∧
    (default_classifier.classify_with_triggers duplicate_trigger_measurement
        sample_behavioral).map (fun r => r.2.map fun t => t.reactivity_score) =
      some [200, 100, 0] := by
  constructor <;>
    norm_num [VagalProfileClassifier.classify_with_triggers, score_tests,
      score_test, calculate_reactivity_index, raw_reactivity_index,
      classify_stress_response, raw_stress_response, assemble_trigger_profile,
      build_sensitivity_map, build_response_map, dict_insert, dict_get,
      sorted_desc, insert_desc, duplicate_trigger_measurement, sample_baseline,
      stress_strong, stress_mild]

/-- Amended claim C10: the reactivity index is 0 for an empty trigger
list and equals the maximal reactivity score when the trigger types are
pairwise distinct; the recovery speed is 50 whenever the final-recovery
snapshot is absent or the trigger list is empty, and is computed from a
strongest test's stress data exactly when both are present. -/
theorem C10_reactivity_recovery_amended (c : VagalProfileClassifier)
    (mm : MultiTriggerMeasurement) (a : BehavioralAssessment)
    (p : VagalProfile) (ts : List TriggerTestResult)
    (h : c.classify_with_triggers mm a = some (p, ts)) :
    (mm.trigger_tests = [] →
      p.reactivity_index = 0 ∧ p.recovery_speed_percent = 50) ∧
    ((mm.trigger_tests.map (fun t => t.trigger_type)).Nodup →
      mm.trigger_tests ≠ [] →
      ∃ t ∈ ts, p.reactivity_index = t.reactivity_score ∧
        ∀ u ∈ ts, u.reactivity_score ≤ t.reactivity_score) ∧
    (mm.final_recovery = none → p.recovery_speed_percent = 50) ∧
    (∀ fr, mm.final_recovery = some fr → mm.trigger_tests ≠ [] →
      ∃ t ∈ ts, (∀ u ∈ ts, u.reactivity_score ≤ t.reactivity_score) ∧
        p.recovery_speed_percent =
          calculate_recovery_speed mm.baseline t.stress_data fr) := by
  obtain ⟨hst, hp⟩ := classify_with_triggers_inv h
  subst hp
  refine ⟨?_, ?_, ?_, ?_⟩
  · intro hnil
    rw [hnil] at hst
    simp only [score_tests, Option.some.injEq] at hst
    rw [← hst]
    constructor
    · simp [assemble_trigger_profile, build_sensitivity_map, sorted_desc]
    · exact assemble_recovery_default _ _ _ _ _ (Or.inr rfl)
  · intro hdist hne
    have hz : ¬(mm.baseline.rmssd = 0 ∨ mm.baseline.sdnn = 0 ∨
        mm.baseline.total_power = 0) := by
      intro hz0
      have hnone := (score_tests_eq_none mm.baseline mm.trigger_tests).mpr ⟨hne, hz0⟩
      rw [hst] at hnone
      cases hnone
    rw [score_tests_eq_map mm.baseline mm.trigger_tests hz,
      Option.some.injEq] at hst
    have hts_ne : ts ≠ [] := by
      rw [← hst]
      simpa using hne
    have hts_dist : (ts.map (fun t => t.trigger_type)).Nodup := by
      rw [← hst, List.map_map]
      have hco : ((fun t : TriggerTestResult => t.trigger_type) ∘
          score_pure mm.baseline) = fun t : TriggerTestResult => t.trigger_type :=
        funext fun t => rfl
      rw [hco]
      exact hdist
    obtain ⟨⟨t, ht, h1, h2, h3, h4⟩, -, -⟩ :=
      assemble_ranking_spec c mm.baseline mm.final_recovery a ts hts_ne hts_dist
    exact ⟨t, ht, h2, h4⟩
  · intro hfrnil
    rw [hfrnil]
    exact assemble_recovery_default _ _ _ _ _ (Or.inl rfl)
  · intro fr hfr hne
    have hz : ¬(mm.baseline.rmssd = 0 ∨ mm.baseline.sdnn = 0 ∨
        mm.baseline.total_power = 0) := by
      intro hz0
      have hnone := (score_tests_eq_none mm.baseline mm.trigger_tests).mpr ⟨hne, hz0⟩
      rw [hst] at hnone
      cases hnone
    rw [score_tests_eq_map mm.baseline mm.trigger_tests hz,
      Option.some.injEq] at hst
    have hts_ne : ts ≠ [] := by
      rw [← hst]
      simpa using hne
    rw [hfr]
    rcases hts2 : ts with _ | ⟨t0, rest⟩
    · exact absurd hts2 hts_ne
    · refine ⟨python_max_test t0 rest, ?_, ?_, ?_⟩
      · rcases (python_max_test_spec t0 rest).1 with hcase | hcase
        · rw [hcase]
          exact List.mem_cons_self _ _
        · exact List.mem_cons_of_mem _ hcase
      · intro u hu
        rcases List.mem_cons.mp hu with rfl | hu'
        · exact (python_max_test_spec u rest).2.1
        · exact (python_max_test_spec t0 rest).2.2 u hu'
      · exact assemble_recovery_computed c mm.baseline fr a t0 rest

/-- Witness for C10 (amended) at a concrete input. -/
theorem C10_witness :
    (distinct_trigger_measurement.trigger_tests = [] →
      distinct_profile.reactivity_index = 0 ∧
      distinct_profile.recovery_speed_percent = 50) ∧
    ((distinct_trigger_measurement.trigger_tests.map
        (fun t => t.trigger_type)).Nodup →
      distinct_trigger_measurement.trigger_tests ≠ [] →
      ∃ t ∈ distinct_scored, distinct_profile.reactivity_index = t.reactivity_score ∧
        ∀ u ∈ distinct_scored, u.reactivity_score ≤ t.reactivity_score) ∧
    (distinct_trigger_measurement.final_recovery = none →
      distinct_profile.recovery_speed_percent = 50) ∧
    (∀ fr, distinct_trigger_measurement.final_recovery = some fr →
      distinct_trigger_measurement.trigger_tests ≠ [] →
      ∃ t ∈ distinct_scored,
        (∀ u ∈ distinct_scored, u.reactivity_score ≤ t.reactivity_score) ∧
        distinct_profile.recovery_speed_percent =
          calculate_recovery_speed distinct_trigger_measurement.baseline
            t.stress_data fr) :=
  C10_reactivity_recovery_amended default_classifier distinct_trigger_measurement
    sample_behavioral distinct_profile distinct_scored
    (by norm_num [VagalProfileClassifier.classify_with_triggers, score_tests,
      score_test, calculate_reactivity_index, raw_reactivity_index,
      classify_stress_response, raw_stress_response, assemble_trigger_profile,
      build_sensitivity_map, build_response_map, dict_insert, dict_get,
      sorted_desc, insert_desc, python_max_test, calculate_recovery_speed,
      calculate_coherence, VagalProfileClassifier.classify_physiological_state,
      VagalProfileClassifier.is_dorsal_pattern,
      VagalProfileClassifier.classify_behavioral_presentation,
      distinct_trigger_measurement, distinct_profile, distinct_scored,
      sample_baseline, stress_strong, stress_medium, sample_behavioral,
      default_classifier, abs_div] <;> decide)

end Psychobot
